import Mathlib

/-!
Shallow embedding of `src/VidToMp3.py` (telegram-VidToMp3-bot).

Python numbers (ints and floats) are modelled as exact rationals `ℚ`;
`int(...)` truncation toward zero is `pyTrunc`, and `format(x, ".Nf")`
rounding (round-half-to-even on the scaled value) is `pyRound`/`fmtFixed`.
Strings are Lean `String`s.  The Telegram / yt-dlp / ffmpeg / filesystem
collaborators are opaque: one request's externally determined data (the
progress events yt-dlp delivers, the file yt-dlp writes, whether ffmpeg
produces output and with what exit code, the resulting file size in bytes,
the video title, the measured elapsed time) is collected in a `FetchEnv`
record, and the shared mutable state (the module-level `progress` dict and
the set of file names in the temp directory) in a `BotState` record.
Real time (`time.time`, `asyncio.sleep`) is not modelled; the elapsed-time
string shown in the caption is taken from the environment.
-/

attribute [local semireducible] Rat.mul Rat.add Rat.sub Rat.inv

/-- Python `int(q)` on a real value: truncation toward zero.
(`Rat.floor` is used rather than `⌊·⌋` to keep the definition
kernel-computable; `Rat.floor_def` identifies the two.) -/
def pyTrunc (q : ℚ) : ℤ :=
  if 0 ≤ q then q.floor else -((-q).floor)

/-- Rounding used by Python `format(x, ".Nf")` on the (exactly modelled)
scaled value: round half to even. -/
def pyRound (q : ℚ) : ℤ :=
  if q - q.floor < 1 / 2 then q.floor
  else if 1 / 2 < q - q.floor then q.floor + 1
  else if q.floor % 2 = 0 then q.floor else q.floor + 1

/-- Python fixed-point formatting `format(q, "." ++ toString prec ++ "f")`:
scale by `10 ^ prec`, round half to even, and print with the fractional
part left-padded with zeros to `prec` digits. -/
def fmtFixed (q : ℚ) (prec : Nat) : String :=
  let n : ℤ := pyRound (q * (10 : ℚ) ^ prec)
  let sign : String := if n < 0 then "-" else ""
  let m : Nat := n.natAbs
  let fracStr : String := toString (m % 10 ^ prec)
  if prec = 0 then
    sign ++ toString m
  else
    sign ++ toString (m / 10 ^ prec) ++ "."
      ++ String.mk (List.replicate (prec - fracStr.length) '0') ++ fracStr

/-- `progress_bar` (src/VidToMp3.py lines 41-43):
`filled = int(length * p / 100)`, then
`f"[{'█' * filled}{'░' * (length - filled)}] {p:.1f}%"`.
A Python string repeated a negative number of times is empty, which
`Int.toNat` reproduces.  The source gives `length` the default `20`;
every call site uses that default, passed explicitly here. -/
def progress_bar (p : ℚ) (length : Nat) : String :=
  let filled : ℤ := pyTrunc ((length : ℚ) * p / 100)
  "[" ++ String.mk (List.replicate filled.toNat '█')
      ++ String.mk (List.replicate ((length - filled).toNat) '░')
      ++ "] " ++ fmtFixed p 1 ++ "%"

/-- Whether `p` is an initial segment of `l` (character lists). -/
def listIsInit : List Char → List Char → Bool
  | [], _ => true
  | _ :: _, [] => false
  | a :: as, b :: bs => a == b && listIsInit as bs

/-- Python `s.startswith(pat)`. -/
def strStarts (s pat : String) : Bool :=
  listIsInit pat.data s.data

/-- Python `s.endswith(pat)`. -/
def strEnds (s pat : String) : Bool :=
  listIsInit pat.data.reverse s.data.reverse

/-- Python `s.strip()`: remove leading and trailing whitespace. -/
def strStrip (s : String) : String :=
  String.mk (((s.data.dropWhile Char.isWhitespace).reverse.dropWhile
    Char.isWhitespace).reverse)

/-- `ANIM_FRAMES` (src/VidToMp3.py line 46). -/
def ANIM_FRAMES : List String := ["🔄", "🌀", "💿", "📀", "⏳", "➡️"]

/-- The module-level `progress` dict (src/VidToMp3.py line 38), restricted
to what the program stores in it: each user id maps to a dict
`{"text": <status string>}`, modelled as the status string itself. -/
def Tracker : Type := Nat → Option String

/-- `progress[uid] = {"text": "Starting..."}` (src/VidToMp3.py line 141):
plain dict assignment, which overwrites any existing entry. -/
def trackerCreate (tr : Tracker) (uid : Nat) : Tracker :=
  fun i => if i = uid then some "Starting..." else tr i

/-- `progress[uid]["text"] = t`: in-place mutation of the text field of an
existing entry.  (If the entry were absent the Python raises `KeyError`;
in every modelled flow the entry exists when this is executed.) -/
def trackerSet (tr : Tracker) (uid : Nat) (t : String) : Tracker :=
  fun i => if i = uid then (tr i).map fun _ => t else tr i

/-- `progress.pop(uid, None)` (src/VidToMp3.py line 176). -/
def trackerPop (tr : Tracker) (uid : Nat) : Tracker :=
  fun i => if i = uid then none else tr i

/-- The per-tick read done by `smooth_progress` (line 53-54):
`data = progress[user_id]; txt = data.get("text", "⏳ Working...")`.
The entries created by this program always carry a `"text"` key, so the
read returns the stored status string. -/
def reporterReadText (tr : Tracker) (uid : Nat) : String :=
  (tr uid).getD "⏳ Working..."

/-- Mutable locals of the `smooth_progress` loop (lines 50-51):
`last` (the last rendered text) and `frame` (the tick counter). -/
structure ReporterState where
  last : String
  frame : Nat
deriving DecidableEq

/-- The rendered text of one reporter tick (lines 55-56):
`emoji = ANIM_FRAMES[frame % len(ANIM_FRAMES)]; text = f"{emoji} {txt}"`. -/
def renderFrame (txt : String) (frame : Nat) : String :=
  ANIM_FRAMES.getD (frame % ANIM_FRAMES.length) "" ++ " " ++ txt

/-- One iteration of the `smooth_progress` loop body (lines 53-64) given
the status text `txt` read from the tracker this tick: returns the updated
locals and whether an edit of the outbound message was attempted
(`msg.edit_text`; its own failures are swallowed and do not affect the
locals, so they are not modelled).  `frame += 1` executes on every
iteration; `last = text` only when `text != last`. -/
def smooth_progress_tick (txt : String) (s : ReporterState) : ReporterState × Bool :=
  let text := renderFrame txt s.frame
  if text = s.last then (⟨s.last, s.frame + 1⟩, false)
  else (⟨text, s.frame + 1⟩, true)

/-- Number of message edits attempted over `n` consecutive ticks during
which the status text read from the tracker is constantly `txt`. -/
def smooth_progress_edits (txt : String) (s : ReporterState) : Nat → Nat
  | 0 => 0
  | n + 1 =>
    let r := smooth_progress_tick txt s
    (if r.2 then 1 else 0) + smooth_progress_edits txt r.1 n

/-- One dict passed by yt-dlp to the progress hook: the fields the hook
reads (`status`, `downloaded_bytes`, `total_bytes`); `none` models an
absent key, read through `dict.get` with a default. -/
structure ProgressEvent where
  status : String
  downloaded_bytes : Option ℚ
  total_bytes : Option ℚ

/-- The status text that `hook` (src/VidToMp3.py lines 79-84) writes into
`progress[uid]["text"]` for one event, if any:
`p = d.get("downloaded_bytes", 0) / max(d.get("total_bytes", 1), 1) * 90`
on a `"downloading"` event, a fixed converting message on `"finished"`. -/
def hookText (ev : ProgressEvent) : Option String :=
  if ev.status = "downloading" then
    some ("📥 Downloading...\n"
      ++ progress_bar (ev.downloaded_bytes.getD 0 / max (ev.total_bytes.getD 1) 1 * 90) 20)
  else if ev.status = "finished" then
    some "🔄 Converting to MP3..."
  else
    none

/-- Effect of one hook invocation on the `progress` dict. -/
def hookApply (uid : Nat) (tr : Tracker) (ev : ProgressEvent) : Tracker :=
  match hookText ev with
  | some t => trackerSet tr uid t
  | none => tr

/-- `f"{uid}_"`: the id-derived name marker used both by the yt-dlp output
template `f"{uid}_%(id)s.%(ext)s"` and by the cleanup scan. -/
def idMark (uid : Nat) : String := toString uid ++ "_"

/-- `os.path.join(tmpdir, f"{uid}_audio.mp3")` (line 113), with the fixed
temp directory elided: file names are kept bare. -/
def mp3Name (uid : Nat) : String := toString uid ++ "_audio.mp3"

/-- The shared mutable state one request touches: the module-level
`progress` dict and the set of file names in the platform temp
directory (kept as a duplicate-free list in listing order). -/
structure BotState where
  tracker : Tracker
  files : List String

/-- A file appearing in the temp directory (the OS overwrites silently,
so an already-present name is kept once). -/
def addFile (files : List String) (f : String) : List String :=
  if f ∈ files then files else files ++ [f]

/-- The externally determined data of one request, everything the opaque
collaborators (yt-dlp, ffmpeg, the OS clock) decide: the progress events
delivered to the hook, whether extraction raises (`fetchError`), the file
yt-dlp writes into the temp directory (`dlWrites`/`dlName`), the video
title if the metadata has one, whether the ffmpeg invocation materializes
its output file and the exit code it returns, the byte size the produced
mp3 ends up with, and the rendered elapsed-time figure
(`round(end_time - start_time, 1)`, real time, taken as opaque). -/
structure FetchEnv where
  events : List ProgressEvent
  fetchError : Option String
  dlWrites : Bool
  dlName : String
  title : Option String
  ffProducesOutput : Bool
  ffExit : ℤ
  mp3SizeBytes : ℚ
  durationStr : String

/-- The tuple `download_audio` returns (line 129):
`mp3, title, duration, file_size`. -/
structure DownloadResult where
  mp3Path : String
  title : String
  durationStr : String
  file_size : ℚ
deriving DecidableEq

/-- `download_audio(url, uid)` (src/VidToMp3.py lines 75-129) as a state
transformer.  yt-dlp runs the hooks and writes its output file, then
either raises (`.error`, propagated to `handle_url`'s `except`) or
returns; the first temp file named `{uid}_*` and not ending in `.mp3`
is picked as ffmpeg's input; ffmpeg is run with
`subprocess.run(cmd, ...)` whose `CompletedProcess` (and hence
`env.ffExit`) is discarded unchecked; the input file is then removed;
`file_size` is `os.path.getsize(mp3) / (1024 * 1024)` if the output
exists and `0` otherwise. -/
def download_audio (env : FetchEnv) (uid : Nat) (st : BotState) :
    Except (String × BotState) (DownloadResult × BotState) :=
  let tr1 := env.events.foldl (hookApply uid) st.tracker
  let files1 := if env.dlWrites then addFile st.files env.dlName else st.files
  match env.fetchError with
  | some e => .error (e, ⟨tr1, files1⟩)
  | none =>
    let input_file := files1.find? fun f =>
      strStarts f (idMark uid) && !strEnds f ".mp3"
    let mp3 := mp3Name uid
    let files3 :=
      match input_file with
      | some inp =>
        (if env.ffProducesOutput then addFile files1 mp3 else files1).erase inp
      | none => files1
    let title := env.title.getD "audio"
    let file_size := if mp3 ∈ files3 then env.mp3SizeBytes / (1024 * 1024) else 0
    .ok (⟨mp3, title, env.durationStr, file_size⟩, ⟨tr1, files3⟩)

/-- What `reply_audio` is called with on the success path
(lines 164-170). -/
structure UploadPayload where
  audio : String
  title : String
  caption : String
deriving DecidableEq

/-- How one request resolves toward the user: the early rejection reply,
a successful audio upload, or an error text edited into the status
message by the `except` branch. -/
inductive HandleResult where
  | invalidInput (reply : String)
  | uploaded (payload : UploadPayload)
  | errorShown (text : String)
deriving DecidableEq

/-- The `try` block of `handle_url` (src/VidToMp3.py lines 144-170) after
the job entry exists: run `download_audio`; raise if the mp3 path does
not exist; raise (after `os.remove(mp3_path)`) if `file_size > 50`;
otherwise write the uploading status and reply with the audio and its
caption.  An `.error` carries the exception text together with the state
at the moment the exception reaches the `except` reporter. -/
def request_body (env : FetchEnv) (uid : Nat) (st : BotState) :
    Except (String × BotState) (UploadPayload × BotState) :=
  match download_audio env uid st with
  | .error es => .error es
  | .ok (res, st2) =>
    if res.mp3Path ∈ st2.files then
      if 50 < res.file_size then
        .error ("❌ File too large. Please use shorter videos (<50 MB).",
          ⟨st2.tracker, st2.files.erase res.mp3Path⟩)
      else
        let tr3 := trackerSet st2.tracker uid
          ("📤 Uploading...\n" ++ progress_bar 100 20)
        let caption := "✅ *" ++ res.title ++ "* converted successfully!\n"
          ++ "⏱️ Time taken: *" ++ res.durationStr ++ "s*\n"
          ++ "💾 File size: *" ++ fmtFixed res.file_size 2 ++ " MB*"
        .ok (⟨res.mp3Path, res.title, caption⟩, ⟨tr3, st2.files⟩)
    else
      .error ("Failed to convert video to MP3", st2)

/-- The `finally` block of `handle_url` (lines 175-190): pop the job
entry (stopping the reporter), best-effort delete of the status message
(no modelled effect), and remove every temp file whose name starts with
`f"{uid}_"`. -/
def finalize (uid : Nat) (st : BotState) : BotState :=
  ⟨trackerPop st.tracker uid,
   st.files.filter fun f => !strStarts f (idMark uid)⟩

/-- `handle_url` (src/VidToMp3.py lines 132-190) for one inbound text
message `text` from user `uid`: strip the text, reject it unless it
starts with `http://` or `https://` (no state change), otherwise create
the job entry, run the try-body, report success or the exception text,
and tear down. -/
def handle_url (env : FetchEnv) (text : String) (uid : Nat) (st : BotState) :
    HandleResult × BotState :=
  let url := strStrip text
  if strStarts url "http://" || strStarts url "https://" then
    let st1 : BotState := ⟨trackerCreate st.tracker uid, st.files⟩
    match request_body env uid st1 with
    | .error (e, st2) => (.errorShown ("❌ Error: " ++ e), finalize uid st2)
    | .ok (payload, st2) => (.uploaded payload, finalize uid st2)
  else
    (.invalidInput "❌ Please send a valid video link (e.g., YouTube).", st)

/-- The environment of the specification's concrete scenario: two
downloading progress events `{downloaded: 50, total: 100}` then
`{downloaded: 100, total: 100}`, a clean fetch of a file for user `7`,
ffmpeg succeeding, a produced mp3 of exactly 10 MiB, and a measured
elapsed time rendered as `3.2`. -/
def demoEnv : FetchEnv where
  events := [⟨"downloading", some 50, some 100⟩, ⟨"downloading", some 100, some 100⟩]
  fetchError := none
  dlWrites := true
  dlName := "7_vid123.webm"
  title := some "video"
  ffProducesOutput := true
  ffExit := 0
  mp3SizeBytes := 10 * 1024 * 1024
  durationStr := "3.2"

/-- The empty initial state: no jobs tracked, empty temp directory. -/
def emptyState : BotState := ⟨fun _ => none, []⟩

/-! ## Helper lemmas -/

lemma rat_floor_eq_intFloor (q : ℚ) : q.floor = ⌊q⌋ := by
  rw [Rat.floor_def]
  exact Rat.floor_def' q

lemma pyTrunc_eq_floor {q : ℚ} (h : 0 ≤ q) : pyTrunc q = ⌊q⌋ := by
  rw [pyTrunc, if_pos h, rat_floor_eq_intFloor]

/-- The cell decomposition of the rendered bar for percentages in the
intended range. -/
lemma progress_bar_cells (p : ℚ) (h0 : 0 ≤ p) (h1 : p ≤ 100) :
    progress_bar p 20
      = "[" ++ String.mk (List.replicate (⌊20 * p / 100⌋).toNat '█')
            ++ String.mk (List.replicate (20 - (⌊20 * p / 100⌋).toNat) '░')
            ++ "] " ++ fmtFixed p 1 ++ "%"
    ∧ (⌊20 * p / 100⌋).toNat + (20 - (⌊20 * p / 100⌋).toNat) = 20 := by
  have hq : (0 : ℚ) ≤ 20 * p / 100 := by positivity
  have hle : (20 : ℚ) * p / 100 ≤ 20 := by linarith
  have hfl0 : 0 ≤ ⌊(20 : ℚ) * p / 100⌋ := Int.floor_nonneg.mpr hq
  have hfl20 : ⌊(20 : ℚ) * p / 100⌋ ≤ 20 := by
    have := Int.floor_le_floor (α := ℚ) hle
    simpa using this
  constructor
  · rw [progress_bar]
    have hc : ((20 : ℕ) : ℚ) = (20 : ℚ) := by norm_num
    rw [hc, pyTrunc_eq_floor hq]
    have hk : (((20 : ℕ) : ℤ) - ⌊(20 : ℚ) * p / 100⌋).toNat
        = 20 - (⌊(20 : ℚ) * p / 100⌋).toNat := by omega
    rw [hk]
  · omega

/-! ## Claim C2 -/

/-- Claim C2: for every percentage p in [0,100], the rendered progress bar
has exactly 20 cells, of which floor(20*p/100) are filled and the
remainder empty, followed by p formatted to one decimal place. -/
theorem c2_bar_cells (p : ℚ) (h0 : 0 ≤ p) (h1 : p ≤ 100) :
    progress_bar p 20
      = "[" ++ String.mk (List.replicate (⌊20 * p / 100⌋).toNat '█')
            ++ String.mk (List.replicate (20 - (⌊20 * p / 100⌋).toNat) '░')
            ++ "] " ++ fmtFixed p 1 ++ "%"
    ∧ (⌊20 * p / 100⌋).toNat + (20 - (⌊20 * p / 100⌋).toNat) = 20 :=
  progress_bar_cells p h0 h1

/-- Witness for C2 at p = 45: nine filled cells, eleven empty. -/
theorem c2_bar_cells_witness :
    progress_bar 45 20
      = "[" ++ String.mk (List.replicate (⌊20 * (45 : ℚ) / 100⌋).toNat '█')
            ++ String.mk (List.replicate (20 - (⌊20 * (45 : ℚ) / 100⌋).toNat) '░')
            ++ "] " ++ fmtFixed 45 1 ++ "%"
    ∧ (⌊20 * (45 : ℚ) / 100⌋).toNat + (20 - (⌊20 * (45 : ℚ) / 100⌋).toNat) = 20 :=
  c2_bar_cells 45 (by norm_num) (by norm_num)

/-! ## Claim C1 -/

/-- Claim C1 counterexample: on the progress event
`{status: "downloading", downloaded_bytes: 50, total_bytes: 100}` the hook
writes the bar rendered at 50 / max(100,1) * 90 = 45, not at
50 / max(100,1) * 100 = 50, and those two renderings differ. -/
theorem c1_counterexample :
    hookText ⟨"downloading", some 50, some 100⟩
      = some ("📥 Downloading...\n" ++ progress_bar 45 20)
    ∧ (50 : ℚ) / max (100 : ℚ) 1 * 90 = 45
    ∧ (50 : ℚ) / max (100 : ℚ) 1 * 100 = 50
    ∧ ("📥 Downloading...\n" ++ progress_bar 45 20)
        ≠ ("📥 Downloading...\n" ++ progress_bar 50 20) := by
  refine ⟨by decide, by decide, by decide, by decide⟩

/-- Claim C1 (amended): for every progress event delivered during
downloading, the handler computes percent = downloaded / max(total, 1) * 90
(not * 100) and writes into the Job's status text a formatted string
containing a 20-cell filled/empty bar scaled to that percentage (the bar
has exactly 20 cells whenever downloaded ≤ max(total, 1)). -/
theorem c1_hook_bar (ev : ProgressEvent) (uid : Nat) (tr : Tracker) (old : String)
    (hst : ev.status = "downloading")
    (h0 : 0 ≤ ev.downloaded_bytes.getD 0)
    (h1 : ev.downloaded_bytes.getD 0 ≤ max (ev.total_bytes.getD 1) 1)
    (htr : tr uid = some old) :
    hookApply uid tr ev uid
      = some ("📥 Downloading...\n"
          ++ ("[" ++ String.mk (List.replicate
                (⌊20 * (ev.downloaded_bytes.getD 0 / max (ev.total_bytes.getD 1) 1 * 90) / 100⌋).toNat '█')
              ++ String.mk (List.replicate
                (20 - (⌊20 * (ev.downloaded_bytes.getD 0 / max (ev.total_bytes.getD 1) 1 * 90) / 100⌋).toNat) '░')
              ++ "] "
              ++ fmtFixed (ev.downloaded_bytes.getD 0 / max (ev.total_bytes.getD 1) 1 * 90) 1 ++ "%"))
    ∧ (⌊20 * (ev.downloaded_bytes.getD 0 / max (ev.total_bytes.getD 1) 1 * 90) / 100⌋).toNat
        + (20 - (⌊20 * (ev.downloaded_bytes.getD 0 / max (ev.total_bytes.getD 1) 1 * 90) / 100⌋).toNat)
        = 20 := by
  set d : ℚ := ev.downloaded_bytes.getD 0 with hd
  set m : ℚ := max (ev.total_bytes.getD 1) 1 with hm
  have hmpos : 0 < m := lt_of_lt_of_le one_pos (le_max_right _ _)
  have hp0 : 0 ≤ d / m * 90 := by positivity
  have hp1 : d / m * 90 ≤ 100 := by
    have hdm : d / m ≤ 1 := (div_le_one hmpos).mpr h1
    nlinarith
  have hbar := progress_bar_cells (d / m * 90) hp0 hp1
  constructor
  · have hh : hookApply uid tr ev uid
        = some ("📥 Downloading...\n" ++ progress_bar (d / m * 90) 20) := by
      simp [hookApply, hookText, hst, trackerSet, htr]
    rw [hh, hbar.1]
  · exact hbar.2

/-- Witness for C1 (amended) at the scenario's first progress event. -/
theorem c1_hook_bar_witness :
    hookApply 7 (trackerCreate (fun _ => none) 7) ⟨"downloading", some 50, some 100⟩ 7
      = some ("📥 Downloading...\n"
          ++ ("[" ++ String.mk (List.replicate
                (⌊20 * (((⟨"downloading", some 50, some 100⟩ : ProgressEvent).downloaded_bytes.getD 0
                  / max ((⟨"downloading", some 50, some 100⟩ : ProgressEvent).total_bytes.getD 1) 1 * 90)) / 100⌋).toNat '█')
              ++ String.mk (List.replicate
                (20 - (⌊20 * (((⟨"downloading", some 50, some 100⟩ : ProgressEvent).downloaded_bytes.getD 0
                  / max ((⟨"downloading", some 50, some 100⟩ : ProgressEvent).total_bytes.getD 1) 1 * 90)) / 100⌋).toNat) '░')
              ++ "] "
              ++ fmtFixed (((⟨"downloading", some 50, some 100⟩ : ProgressEvent).downloaded_bytes.getD 0
                  / max ((⟨"downloading", some 50, some 100⟩ : ProgressEvent).total_bytes.getD 1) 1 * 90)) 1 ++ "%"))
    ∧ (⌊20 * (((⟨"downloading", some 50, some 100⟩ : ProgressEvent).downloaded_bytes.getD 0
        / max ((⟨"downloading", some 50, some 100⟩ : ProgressEvent).total_bytes.getD 1) 1 * 90)) / 100⌋).toNat
        + (20 - (⌊20 * (((⟨"downloading", some 50, some 100⟩ : ProgressEvent).downloaded_bytes.getD 0
        / max ((⟨"downloading", some 50, some 100⟩ : ProgressEvent).total_bytes.getD 1) 1 * 90)) / 100⌋).toNat)
        = 20 :=
  c1_hook_bar ⟨"downloading", some 50, some 100⟩ 7 (trackerCreate (fun _ => none) 7)
    "Starting..." rfl (by norm_num) (by norm_num) (by simp [trackerCreate])

/-! ## Claim C10 -/

/-- Claim C10 counterexample: at p = 101 (> 100) the rendered bar has
exactly 20 filled cells — not more than 20 — and zero empty cells. -/
theorem c10_counterexample :
    (100 : ℚ) < 101
    ∧ (progress_bar 101 20).data.count '█' = 20
    ∧ ¬ 20 < (progress_bar 101 20).data.count '█'
    ∧ (progress_bar 101 20).data.count '░' = 0 := by
  refine ⟨by norm_num, by decide, by decide, by decide⟩

/-- Claim C10 (amended): for every percentage p strictly greater than 100,
the rendered progress bar has zero empty cells and at least 20 filled
cells, and it has strictly more than 20 filled cells exactly when
p ≥ 105 (so the 20-cell bound indeed fails outside [0,100], but only
from 105 on). -/
theorem c10_bar_overflow (p : ℚ) (h : 100 < p) :
    ((20 : ℤ) - ⌊20 * p / 100⌋).toNat = 0
    ∧ 20 ≤ (⌊20 * p / 100⌋).toNat
    ∧ (20 < (⌊20 * p / 100⌋).toNat ↔ 105 ≤ p)
    ∧ progress_bar p 20
        = "[" ++ String.mk (List.replicate (⌊20 * p / 100⌋).toNat '█')
            ++ "] " ++ fmtFixed p 1 ++ "%" := by
  have hp : (0 : ℚ) ≤ p := le_of_lt (lt_trans (by norm_num) h)
  have hq : (0 : ℚ) ≤ 20 * p / 100 := by positivity
  have h20 : (20 : ℤ) ≤ ⌊20 * p / 100⌋ := by
    rw [Int.le_floor]
    rw [le_div_iff₀ (by norm_num : (0 : ℚ) < 100)]
    push_cast
    linarith
  have hiff : 20 < (⌊20 * p / 100⌋).toNat ↔ 105 ≤ p := by
    have h21 : 20 < (⌊20 * p / 100⌋).toNat ↔ (21 : ℤ) ≤ ⌊20 * p / 100⌋ := by omega
    rw [h21, Int.le_floor]
    rw [le_div_iff₀ (by norm_num : (0 : ℚ) < 100)]
    push_cast
    constructor <;> intro hx <;> linarith
  refine ⟨by omega, by omega, hiff, ?_⟩
  rw [progress_bar]
  have hc : ((20 : ℕ) : ℚ) = (20 : ℚ) := by norm_num
  rw [hc, pyTrunc_eq_floor hq]
  have hz : (((20 : ℕ) : ℤ) - ⌊(20 : ℚ) * p / 100⌋).toNat = 0 := by omega
  rw [hz]
  apply String.ext
  simp [String.data_append]

/-- Witness for C10 (amended) at p = 180, a value the hook produces when
total bytes is absent (divisor 1) and 2 bytes are downloaded. -/
theorem c10_bar_overflow_witness :
    ((20 : ℤ) - ⌊20 * (180 : ℚ) / 100⌋).toNat = 0
    ∧ 20 ≤ (⌊20 * (180 : ℚ) / 100⌋).toNat
    ∧ (20 < (⌊20 * (180 : ℚ) / 100⌋).toNat ↔ 105 ≤ (180 : ℚ))
    ∧ progress_bar 180 20
        = "[" ++ String.mk (List.replicate (⌊20 * (180 : ℚ) / 100⌋).toNat '█')
            ++ "] " ++ fmtFixed 180 1 ++ "%" :=
  c10_bar_overflow 180 (by norm_num)

/-! ## Claim C3 -/

/-- Claim C3: in the concrete scenario (user sends
`https://example.com/video`, progress events {downloaded:50,total:100}
then {downloaded:100,total:100}, produced file 10 MiB, ceiling 50 MiB)
the two status strings carry the bar rendered at 45% and at 90%, and the
request resolves as a successful upload whose caption contains the size
string `10.00 MB`. -/
theorem c3_scenario :
    hookText ⟨"downloading", some 50, some 100⟩
      = some ("📥 Downloading...\n" ++ progress_bar 45 20)
    ∧ hookText ⟨"downloading", some 100, some 100⟩
      = some ("📥 Downloading...\n" ++ progress_bar 90 20)
    ∧ (handle_url demoEnv "https://example.com/video" 7 emptyState).1
      = .uploaded ⟨"7_audio.mp3", "video",
          "✅ *video* converted successfully!\n⏱️ Time taken: *3.2s*\n💾 File size: *10.00 MB*"⟩
    ∧ ∃ a b : String,
        "✅ *video* converted successfully!\n⏱️ Time taken: *3.2s*\n💾 File size: *10.00 MB*"
          = a ++ "10.00 MB" ++ b := by
  refine ⟨by decide, by decide, by decide,
    "✅ *video* converted successfully!\n⏱️ Time taken: *3.2s*\n💾 File size: *", "*", by decide⟩

/-! ## Claim C5 -/

/-- Claim C5 counterexample: the inbound text
`" https://example.com/video"` (leading space) does not start with
`http://` or `https://`, yet the handler does not reject it — it strips
the text first and proceeds all the way to an upload. -/
theorem c5_counterexample :
    strStarts " https://example.com/video" "http://" = false
    ∧ strStarts " https://example.com/video" "https://" = false
    ∧ (handle_url demoEnv " https://example.com/video" 7 emptyState).1
        ≠ .invalidInput "❌ Please send a valid video link (e.g., YouTube)."
    ∧ (handle_url demoEnv " https://example.com/video" 7 emptyState).1
        = .uploaded ⟨"7_audio.mp3", "video",
            "✅ *video* converted successfully!\n⏱️ Time taken: *3.2s*\n💾 File size: *10.00 MB*"⟩ := by
  refine ⟨by decide, by decide, by decide, by decide⟩

/-- Claim C5 (amended): for every inbound text message whose
whitespace-stripped text does not start with `http://` or `https://`,
the handler replies with the invalid-input message immediately and leaves
the whole state — in particular the Job Tracker — unchanged. -/
theorem c5_reject_invalid (env : FetchEnv) (text : String) (uid : Nat) (st : BotState)
    (h1 : strStarts (strStrip text) "http://" = false)
    (h2 : strStarts (strStrip text) "https://" = false) :
    handle_url env text uid st
      = (.invalidInput "❌ Please send a valid video link (e.g., YouTube).", st) := by
  rw [handle_url]
  simp [h1, h2]

/-- Witness for C5 (amended) on the text `ftp://example.com/x`. -/
theorem c5_reject_invalid_witness :
    handle_url demoEnv "ftp://example.com/x" 3 emptyState
      = (.invalidInput "❌ Please send a valid video link (e.g., YouTube).", emptyState) :=
  c5_reject_invalid demoEnv "ftp://example.com/x" 3 emptyState (by decide) (by decide)

/-! ## Claim C9 -/

/-- Claim C9: if a Job entry already exists for a requester id, accepting
a second request simply overwrites the entry (creation is a total dict
assignment that never fails or rejects), and afterwards the reporter loop
started for the first job reads status text belonging to the second
request through the shared entry. -/
theorem c9_overwrite (tr : Tracker) (uid : Nat) (old : String)
    (_existing : tr uid = some old) :
    trackerCreate tr uid uid = some "Starting..."
    ∧ ∀ t, reporterReadText (trackerSet (trackerCreate tr uid) uid t) uid = t := by
  refine ⟨by simp [trackerCreate], fun t => ?_⟩
  simp [reporterReadText, trackerSet, trackerCreate]

/-- Witness for C9 with an existing entry `"old status"` for user 5. -/
theorem c9_overwrite_witness :
    trackerCreate (fun i => if i = 5 then some "old status" else none) 5 5
      = some "Starting..."
    ∧ ∀ t, reporterReadText
        (trackerSet (trackerCreate (fun i => if i = 5 then some "old status" else none) 5) 5 t) 5
      = t :=
  c9_overwrite (fun i => if i = 5 then some "old status" else none) 5 "old status" (by decide)

/-! ## Claim C6 -/

/-- After the `finally` block the job entry is gone and no id-marked file
remains. -/
lemma finalize_clears (uid : Nat) (st : BotState) :
    (finalize uid st).tracker uid = none
    ∧ ∀ f ∈ (finalize uid st).files, strStarts f (idMark uid) = false := by
  refine ⟨by simp [finalize, trackerPop], fun f hf => ?_⟩
  have hmem : f ∈ st.files.filter (fun f => !strStarts f (idMark uid)) := hf
  have := (List.mem_filter.mp hmem).2
  simpa using this

/-- Claim C6: for every requester id, on every exit path of request
handling after Job creation (success, fetch error, conversion failure or
size rejection), teardown runs: afterwards the Job Tracker has no entry
for the id and no file whose name carries the `{uid}_` marker remains in
the temp directory. -/
theorem c6_teardown (env : FetchEnv) (text : String) (uid : Nat) (st : BotState)
    (hval : (strStarts (strStrip text) "http://"
              || strStarts (strStrip text) "https://") = true) :
    (handle_url env text uid st).2.tracker uid = none
    ∧ ∀ f ∈ (handle_url env text uid st).2.files, strStarts f (idMark uid) = false := by
  rw [handle_url]
  simp only [hval, if_true]
  rcases hb : request_body env uid ⟨trackerCreate st.tracker uid, st.files⟩ with ⟨e, st2⟩ | ⟨p, st2⟩
  · simpa using finalize_clears uid st2
  · simpa using finalize_clears uid st2

/-- Witness for C6 on the concrete scenario request. -/
theorem c6_teardown_witness :
    (handle_url demoEnv "https://example.com/video" 7 emptyState).2.tracker 7 = none
    ∧ ∀ f ∈ (handle_url demoEnv "https://example.com/video" 7 emptyState).2.files,
        strStarts f (idMark 7) = false :=
  c6_teardown demoEnv "https://example.com/video" 7 emptyState (by decide)

/-! ## Claim C7 -/

/-- Appending the same tail to different heads yields different strings. -/
lemma str_append_ne_of_ne {a b : String} (t : String) (h : a ≠ b) :
    a ++ t ≠ b ++ t := by
  intro e
  apply h
  have h2 := congrArg String.data e
  rw [String.data_append, String.data_append] at h2
  exact String.ext (List.append_cancel_right h2)

/-- A string with a nonempty head segment is nonempty. -/
lemma str_append_ne_empty {a : String} (t : String) (h : a.data ≠ []) :
    a ++ t ≠ "" := by
  intro e
  have h2 := congrArg String.data e
  rw [String.data_append] at h2
  exact h (List.append_eq_nil.mp h2).1

/-- Claim C7: on each reporter tick the decorative frame advances one step
through the fixed cyclic sequence regardless of whether the status text
changed; an edit is attempted exactly when the rendered frame-plus-text
differs from the previously rendered text; and with constant status text
from the reporter's start, 3 consecutive ticks attempt 3 edits. -/
theorem c7_reporter (txt : String) (s : ReporterState) :
    (smooth_progress_tick txt s).1.frame = s.frame + 1
    ∧ ((smooth_progress_tick txt s).2 = true ↔ renderFrame txt s.frame ≠ s.last)
    ∧ smooth_progress_edits txt ⟨"", 0⟩ 3 = 3 := by
  have h1 : renderFrame txt 0 ≠ "" :=
    str_append_ne_empty txt (by decide)
  have h2 : renderFrame txt 1 ≠ renderFrame txt 0 :=
    str_append_ne_of_ne txt (by decide)
  have h3 : renderFrame txt 2 ≠ renderFrame txt 1 :=
    str_append_ne_of_ne txt (by decide)
  refine ⟨?_, ?_, ?_⟩
  · rw [smooth_progress_tick]
    split <;> rfl
  · rw [smooth_progress_tick]
    split
    · next heq => simp [heq]
    · next hne => simp [hne]
  · have e1 : smooth_progress_tick txt ⟨"", 0⟩ = (⟨renderFrame txt 0, 1⟩, true) := by
      rw [smooth_progress_tick]
      simp only []
      rw [if_neg h1]
    have e2 : smooth_progress_tick txt ⟨renderFrame txt 0, 1⟩
        = (⟨renderFrame txt 1, 2⟩, true) := by
      rw [smooth_progress_tick]
      simp only []
      rw [if_neg h2]
    have e3 : smooth_progress_tick txt ⟨renderFrame txt 1, 2⟩
        = (⟨renderFrame txt 2, 3⟩, true) := by
      rw [smooth_progress_tick]
      simp only []
      rw [if_neg h3]
    rw [smooth_progress_edits, e1]
    rw [smooth_progress_edits, e2]
    rw [smooth_progress_edits, e3]
    rfl

/-! ## Claim C8 -/

lemma listIsInit_append (l m : List Char) : listIsInit l (l ++ m) = true := by
  induction l with
  | nil => rfl
  | cons a as ih => simp [listIsInit, ih]

lemma strStarts_append (a b : String) : strStarts (a ++ b) a = true := by
  rw [strStarts, String.data_append]
  exact listIsInit_append a.data b.data

lemma mp3Name_eq (uid : Nat) : mp3Name uid = idMark uid ++ "audio.mp3" := by
  rw [mp3Name, idMark, String.append_assoc]
  congr 1

lemma strStarts_mp3 (uid : Nat) : strStarts (mp3Name uid) (idMark uid) = true := by
  rw [mp3Name_eq]
  exact strStarts_append _ _

lemma mem_addFile {a f : String} {l : List String} :
    a ∈ addFile l f ↔ a ∈ l ∨ a = f := by
  rw [addFile]
  split
  · next hf =>
    constructor
    · exact fun h => Or.inl h
    · rintro (h | rfl)
      · exact h
      · exact hf
  · next hf =>
    simp [List.mem_append]

/-- When ffmpeg does not materialize its output, `download_audio` returns
a result whose mp3 path does not exist and whose reported size is 0. -/
lemma download_audio_no_output (env : FetchEnv) (uid : Nat) (tr : Tracker)
    (files : List String)
    (hfe : env.fetchError = none)
    (hff : env.ffProducesOutput = false)
    (hclean : ∀ f ∈ files, strStarts f (idMark uid) = false)
    (hne : env.dlName ≠ mp3Name uid) :
    ∃ st2 : BotState, download_audio env uid ⟨tr, files⟩
        = .ok (⟨mp3Name uid, env.title.getD "audio", env.durationStr, 0⟩, st2)
      ∧ mp3Name uid ∉ st2.files := by
  have hbase : mp3Name uid ∉ files := by
    intro hm
    have h := hclean _ hm
    rw [strStarts_mp3] at h
    exact absurd h (by decide)
  have hmp3f1 : mp3Name uid ∉ (if env.dlWrites then addFile files env.dlName else files) := by
    split
    · intro hm
      rcases mem_addFile.mp hm with h | h
      · exact hbase h
      · exact hne h.symm
    · exact hbase
  rcases hfind : (if env.dlWrites then addFile files env.dlName else files).find?
      (fun f => strStarts f (idMark uid) && !strEnds f ".mp3") with _ | inp
  · refine ⟨⟨env.events.foldl (hookApply uid) tr,
        if env.dlWrites then addFile files env.dlName else files⟩, ?_, hmp3f1⟩
    simp only [download_audio, hfe, hff, hfind]
    rw [if_neg hmp3f1]
  · refine ⟨⟨env.events.foldl (hookApply uid) tr,
        (if env.dlWrites then addFile files env.dlName else files).erase inp⟩, ?_,
      fun hm => hmp3f1 (List.mem_of_mem_erase hm)⟩
    simp only [download_audio, hfe, hff, hfind, Bool.false_eq_true, if_false]
    rw [if_neg fun hm => hmp3f1 (List.mem_of_mem_erase hm)]

/-- Claim C8 counterexample: with the ffmpeg subprocess exiting with code
1 but still having materialized its output file, the request does not
resolve as a transcode failure — it proceeds to a successful upload,
because the exit code of `subprocess.run` is never examined. -/
theorem c8_counterexample :
    ({ demoEnv with ffExit := 1 } : FetchEnv).ffExit ≠ 0
    ∧ (handle_url { demoEnv with ffExit := 1 } "https://example.com/video" 7 emptyState).1
        = .uploaded ⟨"7_audio.mp3", "video",
            "✅ *video* converted successfully!\n⏱️ Time taken: *3.2s*\n💾 File size: *10.00 MB*"⟩ := by
  refine ⟨by decide, by decide⟩

/-- Claim C8 (amended): a missing transcoder output file causes the
request to resolve as the conversion failure error; the transcoder's exit
code, however, is never examined, so the outcome of request handling is
entirely independent of it. -/
theorem c8_transcode_failure (env : FetchEnv) (text : String) (uid : Nat) (st : BotState)
    (hval : (strStarts (strStrip text) "http://"
              || strStarts (strStrip text) "https://") = true)
    (hfe : env.fetchError = none)
    (hff : env.ffProducesOutput = false)
    (hclean : ∀ f ∈ st.files, strStarts f (idMark uid) = false)
    (hne : env.dlName ≠ mp3Name uid) :
    (handle_url env text uid st).1 = .errorShown "❌ Error: Failed to convert video to MP3"
    ∧ ∀ e₁ e₂ : ℤ, handle_url { env with ffExit := e₁ } text uid st
        = handle_url { env with ffExit := e₂ } text uid st := by
  obtain ⟨st2, hda, hni⟩ := download_audio_no_output env uid
    (trackerCreate st.tracker uid) st.files hfe hff hclean hne
  refine ⟨?_, fun e₁ e₂ => rfl⟩
  rw [handle_url]
  simp only [hval, if_true]
  simp only [request_body, hda]
  rw [if_neg hni]
  rfl

/-- Witness for C8 (amended): the scenario environment but with ffmpeg
producing no output. -/
theorem c8_transcode_failure_witness :
    (handle_url { demoEnv with ffProducesOutput := false }
        "https://example.com/video" 7 emptyState).1
      = .errorShown "❌ Error: Failed to convert video to MP3"
    ∧ ∀ e₁ e₂ : ℤ,
        handle_url { { demoEnv with ffProducesOutput := false } with ffExit := e₁ }
            "https://example.com/video" 7 emptyState
          = handle_url { { demoEnv with ffProducesOutput := false } with ffExit := e₂ }
            "https://example.com/video" 7 emptyState :=
  c8_transcode_failure { demoEnv with ffProducesOutput := false }
    "https://example.com/video" 7 emptyState (by decide) rfl rfl
    (by intro f hf; simp [emptyState] at hf) (by decide)

/-! ## Claim C4 -/

/-- When the fetch succeeds and ffmpeg materializes its output, starting
from a temp directory with no stale id-marked files, `download_audio`
produces exactly the mp3 artifact (the downloaded input file having been
removed) and reports its size in MiB. -/
lemma download_audio_output (env : FetchEnv) (uid : Nat) (tr : Tracker)
    (files : List String)
    (hfe : env.fetchError = none)
    (hdw : env.dlWrites = true)
    (hdn : strStarts env.dlName (idMark uid) = true)
    (hdm : strEnds env.dlName ".mp3" = false)
    (hff : env.ffProducesOutput = true)
    (hclean : ∀ f ∈ files, strStarts f (idMark uid) = false)
    (hne : env.dlName ≠ mp3Name uid) :
    download_audio env uid ⟨tr, files⟩
      = .ok (⟨mp3Name uid, env.title.getD "audio", env.durationStr,
              env.mp3SizeBytes / (1024 * 1024)⟩,
             ⟨env.events.foldl (hookApply uid) tr, files ++ [mp3Name uid]⟩) := by
  have hdlni : env.dlName ∉ files := by
    intro hm
    have h := hclean _ hm
    rw [hdn] at h
    exact absurd h (by decide)
  have hmp3ni : mp3Name uid ∉ files := by
    intro hm
    have h := hclean _ hm
    rw [strStarts_mp3] at h
    exact absurd h (by decide)
  have hf1 : addFile files env.dlName = files ++ [env.dlName] := by
    rw [addFile, if_neg hdlni]
  have hfind : (files ++ [env.dlName]).find?
      (fun f => strStarts f (idMark uid) && !strEnds f ".mp3") = some env.dlName := by
    rw [List.find?_append]
    have hnone : files.find? (fun f => strStarts f (idMark uid) && !strEnds f ".mp3")
        = none := by
      rw [List.find?_eq_none]
      intro x hx
      simp [hclean x hx]
    rw [hnone]
    simp [hdn, hdm]
  have hmp3nf1 : mp3Name uid ∉ files ++ [env.dlName] := by
    intro hm
    rcases List.mem_append.mp hm with h | h
    · exact hmp3ni h
    · exact hne (List.mem_singleton.mp h).symm
  have hf2 : addFile (files ++ [env.dlName]) (mp3Name uid)
      = files ++ [env.dlName] ++ [mp3Name uid] := by
    rw [addFile, if_neg hmp3nf1]
  have herase : (files ++ [env.dlName] ++ [mp3Name uid]).erase env.dlName
      = files ++ [mp3Name uid] := by
    rw [List.append_assoc, List.erase_append_right _ hdlni]
    simp
  have hmem : mp3Name uid ∈ files ++ [mp3Name uid] := by simp
  simp only [download_audio, hfe, hdw, hff, if_true, hf1, hfind, hf2, herase]
  rw [if_pos hmem]

/-- Claim C4: for every artifact size s in MiB against the fixed ceiling
of 50: if s > 50 the request resolves with the size-exceeded error and
the artifact file is already deleted in the state at which the error is
reported; if s ≤ 50 the artifact is uploaded to the requester. -/
theorem c4_size_policy (env : FetchEnv) (text : String) (uid : Nat) (st : BotState)
    (hval : (strStarts (strStrip text) "http://"
              || strStarts (strStrip text) "https://") = true)
    (hfe : env.fetchError = none)
    (hdw : env.dlWrites = true)
    (hdn : strStarts env.dlName (idMark uid) = true)
    (hdm : strEnds env.dlName ".mp3" = false)
    (hff : env.ffProducesOutput = true)
    (hclean : ∀ f ∈ st.files, strStarts f (idMark uid) = false)
    (hne : env.dlName ≠ mp3Name uid) :
    (50 < env.mp3SizeBytes / (1024 * 1024) →
      (handle_url env text uid st).1
        = .errorShown "❌ Error: ❌ File too large. Please use shorter videos (<50 MB)."
      ∧ request_body env uid ⟨trackerCreate st.tracker uid, st.files⟩
          = .error ("❌ File too large. Please use shorter videos (<50 MB).",
              ⟨env.events.foldl (hookApply uid) (trackerCreate st.tracker uid), st.files⟩)
      ∧ mp3Name uid ∉ st.files)
    ∧ (env.mp3SizeBytes / (1024 * 1024) ≤ 50 →
      (handle_url env text uid st).1
        = .uploaded ⟨mp3Name uid, env.title.getD "audio",
            "✅ *" ++ env.title.getD "audio" ++ "* converted successfully!\n"
            ++ "⏱️ Time taken: *" ++ env.durationStr ++ "s*\n"
            ++ "💾 File size: *" ++ fmtFixed (env.mp3SizeBytes / (1024 * 1024)) 2 ++ " MB*"⟩) := by
  have hda := download_audio_output env uid (trackerCreate st.tracker uid) st.files
    hfe hdw hdn hdm hff hclean hne
  have hmp3ni : mp3Name uid ∉ st.files := by
    intro hm
    have h := hclean _ hm
    rw [strStarts_mp3] at h
    exact absurd h (by decide)
  have herase : (st.files ++ [mp3Name uid]).erase (mp3Name uid) = st.files := by
    rw [List.erase_append_right _ hmp3ni]
    simp
  have hmem : mp3Name uid ∈ st.files ++ [mp3Name uid] := by simp
  constructor
  · intro h50
    have hrb : request_body env uid ⟨trackerCreate st.tracker uid, st.files⟩
        = .error ("❌ File too large. Please use shorter videos (<50 MB).",
            ⟨env.events.foldl (hookApply uid) (trackerCreate st.tracker uid), st.files⟩) := by
      simp only [request_body, hda]
      rw [if_pos hmem, if_pos h50, herase]
    refine ⟨?_, hrb, hmp3ni⟩
    rw [handle_url]
    simp only [hval, if_true, hrb]
    rfl
  · intro hle
    have hrb : request_body env uid ⟨trackerCreate st.tracker uid, st.files⟩
        = .ok (⟨mp3Name uid, env.title.getD "audio",
            "✅ *" ++ env.title.getD "audio" ++ "* converted successfully!\n"
            ++ "⏱️ Time taken: *" ++ env.durationStr ++ "s*\n"
            ++ "💾 File size: *" ++ fmtFixed (env.mp3SizeBytes / (1024 * 1024)) 2 ++ " MB*"⟩,
            ⟨trackerSet (env.events.foldl (hookApply uid) (trackerCreate st.tracker uid)) uid
              ("📤 Uploading...\n" ++ progress_bar 100 20),
             st.files ++ [mp3Name uid]⟩) := by
      simp only [request_body, hda]
      rw [if_pos hmem, if_neg (not_lt.mpr hle)]
    rw [handle_url]
    simp only [hval, if_true, hrb]

/-- Witness for C4 on the scenario environment (10 MiB artifact, within
the 50 MiB ceiling). -/
theorem c4_size_policy_witness :
    (50 < demoEnv.mp3SizeBytes / (1024 * 1024) →
      (handle_url demoEnv "https://example.com/video" 7 emptyState).1
        = .errorShown "❌ Error: ❌ File too large. Please use shorter videos (<50 MB)."
      ∧ request_body demoEnv 7 ⟨trackerCreate emptyState.tracker 7, emptyState.files⟩
          = .error ("❌ File too large. Please use shorter videos (<50 MB).",
              ⟨demoEnv.events.foldl (hookApply 7) (trackerCreate emptyState.tracker 7),
               emptyState.files⟩)
      ∧ mp3Name 7 ∉ emptyState.files)
    ∧ (demoEnv.mp3SizeBytes / (1024 * 1024) ≤ 50 →
      (handle_url demoEnv "https://example.com/video" 7 emptyState).1
        = .uploaded ⟨mp3Name 7, demoEnv.title.getD "audio",
            "✅ *" ++ demoEnv.title.getD "audio" ++ "* converted successfully!\n"
            ++ "⏱️ Time taken: *" ++ demoEnv.durationStr ++ "s*\n"
            ++ "💾 File size: *" ++ fmtFixed (demoEnv.mp3SizeBytes / (1024 * 1024)) 2
            ++ " MB*"⟩) :=
  c4_size_policy demoEnv "https://example.com/video" 7 emptyState (by decide) rfl rfl
    (by decide) (by decide) rfl (by intro f hf; simp [emptyState] at hf) (by decide)
